import Mathlib

/-!
Verification of the IP Community Tool (`src/app.py`): a shallow embedding of
the code resolver `get_country_name_from_code` and of the mismatch detector
`process_data`, together with theorems settling the specification claims.

Pandas cells are modelled by an inductive `Cell`: a missing CSV cell is the
float NaN (whose Python string form is "nan"), the resolver produces the
Python value None (string form "None"), and everything else is a string.
A dataframe is a header row of column names plus a rectangular list of rows.
-/

namespace IPTool

/-- A pandas cell: NaN (a missing value read from the CSV), the Python value
None (produced by the resolver for unresolvable codes), or a string. -/
inductive Cell where
  | NaN : Cell
  | PyNone : Cell
  | Str : String → Cell
deriving DecidableEq, Repr

/-- Python `str(x)` as applied by `astype(str)`: NaN prints as "nan",
None prints as "None", a string prints as itself. -/
def pyStr : Cell → String
  | Cell.NaN => "nan"
  | Cell.PyNone => "None"
  | Cell.Str s => s

/-- Python `pd.isna`: true for NaN and None, false for any string. -/
def isna : Cell → Bool
  | Cell.NaN => true
  | Cell.PyNone => true
  | Cell.Str _ => false

/-- Modelled from the spec: the static ISO 3166 reference table bundled with
the pycountry library (not part of src/), restricted here to a fixed set of
entries; each entry maps an uppercase alpha-2 code to the English short name. -/
def alpha2Table : List (String × String) :=
  [("FR", "France"), ("GB", "United Kingdom"), ("SI", "Slovenia"),
   ("AE", "United Arab Emirates"), ("DE", "Germany"), ("US", "United States"),
   ("ES", "Spain"), ("IT", "Italy"), ("NL", "Netherlands"), ("PT", "Portugal"),
   ("IE", "Ireland"), ("BE", "Belgium"), ("AT", "Austria"), ("PL", "Poland"),
   ("SE", "Sweden"), ("NO", "Norway"), ("DK", "Denmark"), ("FI", "Finland"),
   ("CH", "Switzerland"), ("CZ", "Czechia"), ("GR", "Greece"),
   ("HU", "Hungary"), ("RO", "Romania"), ("BG", "Bulgaria"),
   ("HR", "Croatia"), ("SK", "Slovakia"), ("EE", "Estonia"),
   ("LV", "Latvia"), ("LT", "Lithuania"), ("JP", "Japan"), ("CN", "China"),
   ("IN", "India"), ("BR", "Brazil"), ("CA", "Canada"), ("AU", "Australia"),
   ("MX", "Mexico")]

/-- Modelled from the spec: the alpha-3 half of the same reference table. -/
def alpha3Table : List (String × String) :=
  [("FRA", "France"), ("GBR", "United Kingdom"), ("SVN", "Slovenia"),
   ("ARE", "United Arab Emirates"), ("DEU", "Germany"),
   ("USA", "United States"), ("ESP", "Spain"), ("ITA", "Italy"),
   ("NLD", "Netherlands"), ("PRT", "Portugal"), ("IRL", "Ireland"),
   ("BEL", "Belgium"), ("AUT", "Austria"), ("POL", "Poland"),
   ("SWE", "Sweden"), ("NOR", "Norway"), ("DNK", "Denmark"),
   ("FIN", "Finland"), ("CHE", "Switzerland"), ("CZE", "Czechia"),
   ("GRC", "Greece"), ("HUN", "Hungary"), ("ROU", "Romania"),
   ("BGR", "Bulgaria"), ("HRV", "Croatia"), ("SVK", "Slovakia"),
   ("EST", "Estonia"), ("LVA", "Latvia"), ("LTU", "Lithuania"),
   ("JPN", "Japan"), ("CHN", "China"), ("IND", "India"), ("BRA", "Brazil"),
   ("CAN", "Canada"), ("AUS", "Australia"), ("MEX", "Mexico")]

/-- Python `str.strip()`: remove leading and trailing whitespace. -/
def pyStrip (s : String) : String :=
  ⟨((s.data.dropWhile Char.isWhitespace).reverse.dropWhile Char.isWhitespace).reverse⟩

/-- Python `str.upper()` on the ASCII range. -/
def pyUpper (s : String) : String :=
  ⟨s.data.map Char.toUpper⟩

/-- Python `str.lower()` on the ASCII range. -/
def pyLower (s : String) : String :=
  ⟨s.data.map Char.toLower⟩

/-- Exact key lookup in a reference table (`pycountry.countries.get`). -/
def tableLookup : List (String × String) → String → Option String
  | [], _ => none
  | (k, v) :: rest, s => if s = k then some v else tableLookup rest s

/-- The lookup cascade of `get_country_name_from_code` on an already
normalized (trimmed, uppercased) code: try the alpha-2 table first, then the
alpha-3 table, and fall back to None. -/
def resolveNorm (code : String) : Cell :=
  match tableLookup alpha2Table code with
  | some name => Cell.Str name
  | none =>
    match tableLookup alpha3Table code with
    | some name => Cell.Str name
    | none => Cell.PyNone

/-- `get_country_name_from_code` (src/app.py lines 6-35): None for NaN/None or
the empty string; otherwise trim and uppercase the input, look it up first in
the alpha-2 table, then in the alpha-3 table, and return None when neither
matches.  The source wraps everything in try/except returning None, so the
embedding is a total function into `Cell`. -/
def get_country_name_from_code (country_code : Cell) : Cell :=
  if isna country_code then Cell.PyNone
  else if country_code = Cell.Str "" then Cell.PyNone
  else resolveNorm (pyUpper (pyStrip (pyStr country_code)))

/-- A pandas dataframe: a list of column labels and a list of rows.  (Frames
produced by `pd.read_csv` are rectangular and have pairwise distinct labels,
since duplicate CSV headers are mangled on read.) -/
structure DataFrame where
  cols : List String
  rows : List (List Cell)
deriving DecidableEq, Repr

/-- Rectangularity: every row has one cell per column label. -/
def DataFrame.Wellformed (df : DataFrame) : Prop :=
  ∀ r ∈ df.rows, r.length = df.cols.length

instance (df : DataFrame) : Decidable df.Wellformed := by
  unfold DataFrame.Wellformed; infer_instance

/-- The cell of row `r` in column position `i`. -/
def cellAt (r : List Cell) (i : Nat) : Cell :=
  r.getD i Cell.NaN

/-- Position of the first column with the given label, if any. -/
def colIdx : List String → String → Option Nat
  | [], _ => none
  | c :: cs, n => if c = n then some 0 else (colIdx cs n).map (· + 1)

/-- The error conditions of the pandas calls that `process_data` makes:
`ColumnOutOfRange` is the `IndexError` that `.iloc` raises for a positional
index past the last column, `MissingLabel` the `KeyError` of a label lookup. -/
inductive PandasError where
  | ColumnOutOfRange
  | MissingLabel
deriving DecidableEq, Repr

instance {ε α : Type} [DecidableEq ε] [DecidableEq α] : DecidableEq (Except ε α) :=
  fun a b =>
    match a, b with
    | Except.ok x, Except.ok y =>
      if h : x = y then isTrue (congrArg Except.ok h)
      else isFalse (fun hc => h (Except.ok.inj hc))
    | Except.error e, Except.error f =>
      if h : e = f then isTrue (congrArg Except.error h)
      else isFalse (fun hc => h (Except.error.inj hc))
    | Except.ok _, Except.error _ => isFalse (fun hc => Except.noConfusion hc)
    | Except.error _, Except.ok _ => isFalse (fun hc => Except.noConfusion hc)

/-- `df.iloc[:, i]`: the column at position `i`, or an `IndexError` when the
frame has at most `i` columns. -/
def DataFrame.iloc (df : DataFrame) (i : Nat) : Except PandasError (List Cell) :=
  if i < df.cols.length then
    Except.ok (df.rows.map (fun r => cellAt r i))
  else
    Except.error PandasError.ColumnOutOfRange

/-- `df[name]`: the column with the given label. -/
def DataFrame.byName (df : DataFrame) (name : String) : Except PandasError (List Cell) :=
  match colIdx df.cols name with
  | some i => Except.ok (df.rows.map (fun r => cellAt r i))
  | none => Except.error PandasError.MissingLabel

/-- `df[name] = vals`: overwrite the column when the label exists, otherwise
append a new column on the right. -/
def DataFrame.setCol (df : DataFrame) (name : String) (vals : List Cell) : DataFrame :=
  match colIdx df.cols name with
  | some i => ⟨df.cols, List.zipWith (fun r v => r.set i v) df.rows vals⟩
  | none => ⟨df.cols ++ [name], List.zipWith (fun r v => r ++ [v]) df.rows vals⟩

/-- `name in df.columns`. -/
def DataFrame.hasCol (df : DataFrame) (name : String) : Bool :=
  (colIdx df.cols name).isSome

/-- Keep the entries of `xs` at the positions where the boolean mask holds. -/
def maskFilter : List Bool → List α → List α
  | true :: bs, x :: xs => x :: maskFilter bs xs
  | false :: bs, _ :: xs => maskFilter bs xs
  | _, _ => []

/-- `df[mask]`: keep the rows selected by a boolean mask. -/
def DataFrame.filterRows (df : DataFrame) (mask : List Bool) : DataFrame :=
  ⟨df.cols, maskFilter mask df.rows⟩

/-- `df.drop(name, axis=1)`: remove every column carrying the given label. -/
def DataFrame.dropCol (df : DataFrame) (name : String) : DataFrame :=
  let keep := df.cols.map (fun c => c != name)
  ⟨maskFilter keep df.cols, df.rows.map (fun r => maskFilter keep r)⟩

/-- `process_data` (src/app.py lines 37-60): resolve the codes of column
position 5 into a helper column `mapped_country_name`, compare the string
forms of the helper column against the string forms of column position 6,
keep the rows where they differ while the helper is not the string "None"
and the reported side is not the string "nan", drop the helper column from
that subset, and return it together with the annotated frame. -/
def process_data (df : DataFrame) : Except PandasError (DataFrame × DataFrame) := do
  let codeCol ← df.iloc 5
  let df_processed := df.setCol "mapped_country_name" (codeCol.map get_country_name_from_code)
  let nameCol ← df_processed.iloc 6
  let actual_countries := nameCol.map (fun c => pyStrip (pyStr c))
  let mappedCol ← df_processed.byName "mapped_country_name"
  let mapped_countries := mappedCol.map (fun c => pyStrip (pyStr c))
  let mismatches := List.zipWith
    (fun m a => (m != a) && (m != "None") && (a != "nan"))
    mapped_countries actual_countries
  let suspect0 := df_processed.filterRows mismatches
  let suspect_df :=
    if suspect0.hasCol "mapped_country_name" then
      suspect0.dropCol "mapped_country_name"
    else suspect0
  return (suspect_df, df_processed)

/-- The per-row mismatch test that `process_data` applies when the two
distinguished columns sit at positions 5 and 6 of the row. -/
def mismatchRow (r : List Cell) : Bool :=
  let mapped := pyStrip (pyStr (get_country_name_from_code (cellAt r 5)))
  let actual := pyStrip (pyStr (cellAt r 6))
  (mapped != actual) && (mapped != "None") && (actual != "nan")

/-- The annotated frame that `process_data` builds from a frame with no
`mapped_country_name` column: the resolver output appended on the right. -/
def withResolution (df : DataFrame) : DataFrame :=
  ⟨df.cols ++ ["mapped_country_name"],
   df.rows.map (fun r => r ++ [get_country_name_from_code (cellAt r 5)])⟩

/-- Modelled from the spec: the parameterized detector contract
`detect(records, code_col, name_col)` of spec section 4.2, absent from src/:
it is `process_data` with the two distinguished column positions passed as
explicit parameters instead of the fixed 5 and 6. -/
def detect (df : DataFrame) (code_col name_col : Nat) :
    Except PandasError (DataFrame × DataFrame) := do
  let codeCol ← df.iloc code_col
  let df_processed := df.setCol "mapped_country_name" (codeCol.map get_country_name_from_code)
  let nameCol ← df_processed.iloc name_col
  let actual_countries := nameCol.map (fun c => pyStrip (pyStr c))
  let mappedCol ← df_processed.byName "mapped_country_name"
  let mapped_countries := mappedCol.map (fun c => pyStrip (pyStr c))
  let mismatches := List.zipWith
    (fun m a => (m != a) && (m != "None") && (a != "nan"))
    mapped_countries actual_countries
  let suspect0 := df_processed.filterRows mismatches
  let suspect_df :=
    if suspect0.hasCol "mapped_country_name" then
      suspect0.dropCol "mapped_country_name"
    else suspect0
  return (suspect_df, df_processed)

/-- Claim C1's classification rule, read off the spec's words: suspect iff
the resolved name is a non-empty string, the reported name is a non-empty
string (in particular not a missing value), and the two differ after
trimming whitespace. -/
def suspectSpecC1 (code reported : Cell) : Bool :=
  match get_country_name_from_code code, reported with
  | Cell.Str s, Cell.Str t => (s != "") && (t != "") && (pyStrip s != pyStrip t)
  | _, _ => false

/-- The classification rule the code actually implements, stated per record:
suspect iff the resolution did not fail, the trimmed string form of the
reported cell is not the literal "nan" (which excludes missing values, whose
string form is "nan", and also genuine text trimming to "nan", but does not
exclude the empty string), and the trimmed string forms differ. -/
def suspectAmendedC1 (code reported : Cell) : Bool :=
  let resolved := get_country_name_from_code code
  (resolved != Cell.PyNone) &&
    (pyStrip (pyStr reported) != "nan") &&
    (pyStrip (pyStr (resolved)) != pyStrip (pyStr reported))

/-- The seven column labels of the frames used as concrete inputs. -/
def col7 : List String := ["A", "B", "C", "D", "E", "F", "G"]

/-- A record whose code resolves to Slovenia while the reported name reads
United Arab Emirates: the mismatch the spec's own example calls suspect. -/
def rowSI : List Cell :=
  [Cell.Str "u1", Cell.Str "b1", Cell.Str "c1", Cell.Str "d1", Cell.Str "e1",
   Cell.Str "SI", Cell.Str "United Arab Emirates"]

/-- A matching record: FR resolves to France, France reported. -/
def rowFR : List Cell :=
  [Cell.Str "u2", Cell.Str "b2", Cell.Str "c2", Cell.Str "d2", Cell.Str "e2",
   Cell.Str "FR", Cell.Str "France"]

/-- A record with an unresolvable code. -/
def rowXX : List Cell :=
  [Cell.Str "u3", Cell.Str "b3", Cell.Str "c3", Cell.Str "d3", Cell.Str "e3",
   Cell.Str "XX", Cell.Str "Narnia"]

/-- A record with a resolvable code but a missing reported name. -/
def rowGB : List Cell :=
  [Cell.Str "u4", Cell.Str "b4", Cell.Str "c4", Cell.Str "d4", Cell.Str "e4",
   Cell.Str "GB", Cell.NaN]

/-- A record whose reported name is genuine text that trims to "nan". -/
def rowDEnan : List Cell :=
  [Cell.Str "u5", Cell.Str "b5", Cell.Str "c5", Cell.Str "d5", Cell.Str "e5",
   Cell.Str "DE", Cell.Str " nan "]

/-- A well-formed seven-column frame exercising all classification cases. -/
def dfOK : DataFrame :=
  ⟨col7, [rowSI, rowFR, rowXX, rowGB, rowDEnan]⟩

/-- The suspect frame that `process_data` produces from `dfOK`. -/
def suspectOK : DataFrame :=
  ⟨col7, [rowSI]⟩

/-- A record with code FR and the literal reported text "nan". -/
def rowFRnanText : List Cell :=
  [Cell.Str "u6", Cell.Str "b6", Cell.Str "c6", Cell.Str "d6", Cell.Str "e6",
   Cell.Str "FR", Cell.Str "nan"]

/-- A one-record frame whose reported name is the genuine text "nan". -/
def dfNanText : DataFrame :=
  ⟨col7, [rowFRnanText]⟩

/-- A record with code FR and an empty-string reported name. -/
def rowFRempty : List Cell :=
  [Cell.Str "u7", Cell.Str "b7", Cell.Str "c7", Cell.Str "d7", Cell.Str "e7",
   Cell.Str "FR", Cell.Str ""]

/-- A one-record frame whose reported-name cell is the empty string. -/
def dfEmptyName : DataFrame :=
  ⟨col7, [rowFRempty]⟩

/-- A record for the frame whose first column is labelled
`mapped_country_name`. -/
def rowH0 : List Cell :=
  [Cell.Str "x", Cell.Str "b", Cell.Str "c", Cell.Str "d", Cell.Str "e",
   Cell.Str "SI", Cell.Str "United Arab Emirates"]

/-- A frame that already carries a column labelled `mapped_country_name`
(at position 0), colliding with the helper label of `process_data`. -/
def dfHelper0 : DataFrame :=
  ⟨["mapped_country_name", "B", "C", "D", "E", "F", "G"], [rowH0]⟩

/-- The suspect row `process_data` returns from `dfHelper0`: the input record
with its `mapped_country_name` cell removed. -/
def rowH0dropped : List Cell :=
  [Cell.Str "b", Cell.Str "c", Cell.Str "d", Cell.Str "e",
   Cell.Str "SI", Cell.Str "United Arab Emirates"]

/-- The suspect frame `process_data` produces from `dfHelper0`: six columns
where the input had seven. -/
def suspectHelper0 : DataFrame :=
  ⟨["B", "C", "D", "E", "F", "G"], [rowH0dropped]⟩

/-- The annotated frame `process_data` produces from `dfHelper0`: the
colliding column was overwritten in place by the resolver output. -/
def procHelper0 : DataFrame :=
  ⟨["mapped_country_name", "B", "C", "D", "E", "F", "G"],
   [[Cell.Str "Slovenia", Cell.Str "b", Cell.Str "c", Cell.Str "d",
     Cell.Str "e", Cell.Str "SI", Cell.Str "United Arab Emirates"]]⟩

/-- A six-column frame: one column short of what positions 5 and 6 require. -/
def dfSixCol : DataFrame :=
  ⟨["A", "B", "C", "D", "E", "F"],
   [[Cell.Str "a", Cell.Str "b", Cell.Str "c", Cell.Str "d", Cell.Str "e",
     Cell.Str "SI"]]⟩

/-- A five-column frame: position 5 itself is out of range. -/
def dfFiveCol : DataFrame :=
  ⟨["A", "B", "C", "D", "E"],
   [[Cell.Str "a", Cell.Str "b", Cell.Str "c", Cell.Str "d", Cell.Str "e"]]⟩

/-- A frame matching under the {5,6} column convention but mismatching under
the {3,4} convention. -/
def dfC3 : DataFrame :=
  ⟨col7,
   [[Cell.Str "a", Cell.Str "b", Cell.Str "c", Cell.Str "SI",
     Cell.Str "United Arab Emirates", Cell.Str "FR", Cell.Str "France"]]⟩

theorem colIdx_eq_none_of_not_mem :
    ∀ {cols : List String} {n : String}, n ∉ cols → colIdx cols n = none := by
  intro cols
  induction cols with
  | nil => intro n _; rfl
  | cons c cs ih =>
    intro n h
    have hc : ¬ (c = n) := fun hcn => h (hcn ▸ List.mem_cons_self c cs)
    simp [colIdx, hc, ih (fun hm => h (List.mem_cons_of_mem _ hm))]

theorem colIdx_append_self :
    ∀ {cols : List String} {n : String}, n ∉ cols →
      colIdx (cols ++ [n]) n = some cols.length := by
  intro cols
  induction cols with
  | nil => intro n _; simp [colIdx]
  | cons c cs ih =>
    intro n h
    have hc : ¬ (c = n) := fun hcn => h (hcn ▸ List.mem_cons_self c cs)
    simp [colIdx, hc, ih (fun hm => h (List.mem_cons_of_mem _ hm))]

theorem maskFilter_map_map (p : α → Bool) (e : α → β) :
    ∀ l : List α, maskFilter (l.map p) (l.map e) = (l.filter p).map e := by
  intro l
  induction l with
  | nil => rfl
  | cons x xs ih =>
    simp only [List.map_cons]
    cases hpx : p x
    · simp [maskFilter, List.filter_cons, hpx, ih]
    · simp [maskFilter, List.filter_cons, hpx, ih]

theorem maskFilter_map_self (p : α → Bool) (l : List α) :
    maskFilter (l.map p) l = l.filter p := by
  have h := maskFilter_map_map p id l
  simpa using h

theorem maskFilter_append :
    ∀ (bs : List Bool) (xs : List α) (cs : List Bool) (ys : List α),
      bs.length = xs.length →
      maskFilter (bs ++ cs) (xs ++ ys) = maskFilter bs xs ++ maskFilter cs ys := by
  intro bs
  induction bs with
  | nil =>
    intro xs cs ys h
    have hx : xs = [] := List.length_eq_zero.mp h.symm
    subst hx
    simp [maskFilter]
  | cons b bs ih =>
    intro xs cs ys h
    cases xs with
    | nil => simp at h
    | cons x xs =>
      have hl : bs.length = xs.length := by simpa using h
      cases b
      · simp [maskFilter, ih xs cs ys hl]
      · simp [maskFilter, ih xs cs ys hl]

theorem maskFilter_all_true :
    ∀ (bs : List Bool) (xs : List α), (∀ b ∈ bs, b = true) →
      bs.length = xs.length → maskFilter bs xs = xs := by
  intro bs
  induction bs with
  | nil =>
    intro xs _ h
    have hx : xs = [] := List.length_eq_zero.mp h.symm
    subst hx
    rfl
  | cons b bs ih =>
    intro xs hall h
    cases xs with
    | nil => simp at h
    | cons x xs =>
      have hb : b = true := hall b (List.mem_cons_self b bs)
      subst hb
      have hl : bs.length = xs.length := by simpa using h
      simp [maskFilter, ih xs (fun c hc => hall c (List.mem_cons_of_mem _ hc)) hl]

theorem maskFilter_sublist :
    ∀ (bs : List Bool) (xs : List α), (maskFilter bs xs).Sublist xs := by
  intro bs
  induction bs with
  | nil => intro xs; cases xs <;> simp [maskFilter]
  | cons b bs ih =>
    intro xs
    cases xs with
    | nil => simp [maskFilter]
    | cons x xs =>
      cases b
      · exact List.Sublist.cons x (ih xs)
      · exact List.Sublist.cons₂ x (ih xs)

theorem cellAt_append_of_lt {r l : List Cell} {i : Nat} (h : i < r.length) :
    cellAt (r ++ l) i = cellAt r i := by
  simp only [cellAt, List.getD_eq_getElem?_getD]
  rw [List.getElem?_append_left h]

theorem cellAt_append_len :
    ∀ (r : List Cell) (v : Cell), cellAt (r ++ [v]) r.length = v := by
  intro r v
  induction r with
  | nil => rfl
  | cons hd tl ih => exact ih

/-- Central characterization: on a rectangular frame with at least 7 columns
and no column already labelled `mapped_country_name`, `process_data` succeeds
and returns exactly the rows passing `mismatchRow`, in order, under the
original schema, together with the annotated frame. -/
theorem process_data_ok (df : DataFrame) (hwf : df.Wellformed)
    (h7 : 7 ≤ df.cols.length) (hh : "mapped_country_name" ∉ df.cols) :
    process_data df =
      Except.ok (⟨df.cols, df.rows.filter mismatchRow⟩, withResolution df) := by
  have h5 : df.iloc 5 = Except.ok (df.rows.map (fun r => cellAt r 5)) := by
    unfold DataFrame.iloc
    rw [if_pos (by omega)]
  have hset :
      df.setCol "mapped_country_name"
        ((df.rows.map (fun r => cellAt r 5)).map get_country_name_from_code) =
      withResolution df := by
    unfold DataFrame.setCol withResolution
    rw [colIdx_eq_none_of_not_mem hh]
    simp [List.map_map, List.zipWith_map_right, List.zipWith_same]
  have h6 : (withResolution df).iloc 6 =
      Except.ok (df.rows.map (fun r => cellAt r 6)) := by
    unfold DataFrame.iloc withResolution
    rw [if_pos (by simp; omega)]
    simp only [List.map_map]
    congr 1
    refine List.map_congr_left ?_
    intro r hr
    have hlen : r.length = df.cols.length := hwf r hr
    exact cellAt_append_of_lt (by omega)
  have hby : (withResolution df).byName "mapped_country_name" =
      Except.ok (df.rows.map (fun r => get_country_name_from_code (cellAt r 5))) := by
    unfold DataFrame.byName withResolution
    simp only
    rw [colIdx_append_self hh]
    simp only [List.map_map]
    congr 1
    refine List.map_congr_left ?_
    intro r hr
    have hlen : r.length = df.cols.length := hwf r hr
    calc cellAt (r ++ [get_country_name_from_code (cellAt r 5)]) df.cols.length
        = cellAt (r ++ [get_country_name_from_code (cellAt r 5)]) r.length := by rw [hlen]
      _ = get_country_name_from_code (cellAt r 5) := cellAt_append_len r _
  have hmask :
      List.zipWith (fun m a => (m != a) && (m != "None") && (a != "nan"))
        ((df.rows.map (fun r => get_country_name_from_code (cellAt r 5))).map
          (fun c => pyStrip (pyStr c)))
        ((df.rows.map (fun r => cellAt r 6)).map (fun c => pyStrip (pyStr c))) =
      df.rows.map mismatchRow := by
    simp only [List.map_map, List.zipWith_map, List.zipWith_same]
    rfl
  have hdrop :
      (DataFrame.mk (df.cols ++ ["mapped_country_name"])
          ((df.rows.filter mismatchRow).map
            (fun r => r ++ [get_country_name_from_code (cellAt r 5)]))).dropCol
        "mapped_country_name" =
      ⟨df.cols, df.rows.filter mismatchRow⟩ := by
    unfold DataFrame.dropCol
    simp only [List.map_append, List.map_cons, List.map_nil, bne_self_eq_false]
    have hkeep : ∀ b ∈ df.cols.map (fun c => c != "mapped_country_name"), b = true := by
      intro b hb
      rcases List.mem_map.mp hb with ⟨c, hc, hcb⟩
      have hcne : c ≠ "mapped_country_name" := fun he => hh (he ▸ hc)
      rw [← hcb]
      simpa [bne_iff_ne] using hcne
    have hcols :
        maskFilter (df.cols.map (fun c => c != "mapped_country_name") ++ [false])
          (df.cols ++ ["mapped_country_name"]) = df.cols := by
      rw [maskFilter_append _ _ _ _ (by simp)]
      rw [maskFilter_map_self]
      have : df.cols.filter (fun c => c != "mapped_country_name") = df.cols :=
        List.filter_eq_self.mpr (fun c hc => by
          have : c ≠ "mapped_country_name" := fun he => hh (he ▸ hc)
          simpa [bne_iff_ne] using this)
      simp [maskFilter, this]
    have hrows :
        ((df.rows.filter mismatchRow).map
            (fun r => r ++ [get_country_name_from_code (cellAt r 5)])).map
          (fun r => maskFilter
            (df.cols.map (fun c => c != "mapped_country_name") ++ [false]) r) =
        df.rows.filter mismatchRow := by
      rw [List.map_map]
      have : ∀ r ∈ df.rows.filter mismatchRow,
          maskFilter (df.cols.map (fun c => c != "mapped_country_name") ++ [false])
            (r ++ [get_country_name_from_code (cellAt r 5)]) = r := by
        intro r hr
        have hlen : r.length = df.cols.length := hwf r (List.mem_of_mem_filter hr)
        rw [maskFilter_append _ _ _ _ (by simp [hlen])]
        rw [maskFilter_all_true _ _ hkeep (by simp [hlen])]
        simp [maskFilter]
      calc (df.rows.filter mismatchRow).map
              ((fun r => maskFilter
                (df.cols.map (fun c => c != "mapped_country_name") ++ [false]) r) ∘
               (fun r => r ++ [get_country_name_from_code (cellAt r 5)]))
          = (df.rows.filter mismatchRow).map id := List.map_congr_left this
        _ = df.rows.filter mismatchRow := List.map_id _
    rw [hcols, hrows]
  have hhas :
      (DataFrame.mk (df.cols ++ ["mapped_country_name"])
          ((df.rows.filter mismatchRow).map
            (fun r => r ++ [get_country_name_from_code (cellAt r 5)]))).hasCol
        "mapped_country_name" = true := by
    unfold DataFrame.hasCol
    simp [colIdx_append_self hh]
  simp only [process_data, bind, Except.bind, h5, hset, h6, hby, hmask]
  unfold DataFrame.filterRows
  simp only [withResolution, maskFilter_map_map]
  simp only [withResolution] at hhas hdrop
  rw [hhas]
  simp only [if_true, hdrop]
  rfl

theorem tableLookup_mem :
    ∀ (t : List (String × String)) (k v : String),
      tableLookup t k = some v → (k, v) ∈ t := by
  intro t
  induction t with
  | nil => intro k v h; exact Option.noConfusion h
  | cons p rest ih =>
    intro k v h
    obtain ⟨pk, pv⟩ := p
    simp only [tableLookup] at h
    by_cases hk : k = pk
    · rw [if_pos hk] at h
      have hv : pv = v := Option.some.inj h
      subst hk
      subst hv
      exact List.mem_cons_self _ _
    · rw [if_neg hk] at h
      exact List.mem_cons_of_mem _ (ih k v h)

theorem not_mem_of_colIdx_eq_none :
    ∀ {cols : List String} {n : String}, colIdx cols n = none → n ∉ cols := by
  intro cols
  induction cols with
  | nil => intro n _ hmem; cases hmem
  | cons c cs ih =>
    intro n h hmem
    simp only [colIdx] at h
    by_cases hc : c = n
    · rw [if_pos hc] at h; exact Option.noConfusion h
    · rw [if_neg hc] at h
      have hnone : colIdx cs n = none := by
        cases hx : colIdx cs n with
        | none => rfl
        | some i => rw [hx] at h; exact Option.noConfusion h
      rcases List.mem_cons.mp hmem with he | hm
      · exact hc he.symm
      · exact ih hnone hm

theorem get_str {s : String} (hs : s ≠ "") :
    get_country_name_from_code (Cell.Str s) = resolveNorm (pyUpper (pyStrip s)) := by
  unfold get_country_name_from_code
  rw [if_neg (by simp [isna]), if_neg (by simp [hs])]
  rfl

theorem get_congr {s t : String} (hs : s ≠ "") (ht : t ≠ "")
    (h : pyUpper (pyStrip s) = pyUpper (pyStrip t)) :
    get_country_name_from_code (Cell.Str s) = get_country_name_from_code (Cell.Str t) := by
  rw [get_str hs, get_str ht, h]

theorem get_country_cases (c : Cell) :
    get_country_name_from_code c = Cell.PyNone ∨
    ∃ k n, ((k, n) ∈ alpha2Table ∨ (k, n) ∈ alpha3Table) ∧
      get_country_name_from_code c = Cell.Str n := by
  cases c with
  | NaN => left; rfl
  | PyNone => left; rfl
  | Str s =>
    by_cases hs : s = ""
    · left; subst hs; rfl
    · rw [get_str hs]
      unfold resolveNorm
      cases h2 : tableLookup alpha2Table (pyUpper (pyStrip s)) with
      | some n =>
        right
        exact ⟨pyUpper (pyStrip s), n, Or.inl (tableLookup_mem _ _ _ h2), rfl⟩
      | none =>
        cases h3 : tableLookup alpha3Table (pyUpper (pyStrip s)) with
        | some n =>
          right
          exact ⟨pyUpper (pyStrip s), n, Or.inr (tableLookup_mem _ _ _ h3), rfl⟩
        | none => left; rfl

theorem alpha2_names_not_none : ∀ p ∈ alpha2Table, pyStrip p.2 ≠ "None" := by decide

theorem alpha3_names_not_none : ∀ p ∈ alpha3Table, pyStrip p.2 ≠ "None" := by decide

theorem mismatchRow_eq_false_of_nanText {r : List Cell}
    (h : pyStrip (pyStr (cellAt r 6)) = "nan") : mismatchRow r = false := by
  simp only [mismatchRow, h]
  simp

theorem mismatchRow_eq_false_of_unresolved {r : List Cell}
    (h : get_country_name_from_code (cellAt r 5) = Cell.PyNone) :
    mismatchRow r = false := by
  simp only [mismatchRow, h]
  have hN : pyStrip (pyStr Cell.PyNone) = "None" := by decide
  rw [hN]
  simp

theorem mismatchRow_eq_suspectAmendedC1 (r : List Cell) :
    mismatchRow r = suspectAmendedC1 (cellAt r 5) (cellAt r 6) := by
  simp only [mismatchRow, suspectAmendedC1]
  rcases get_country_cases (cellAt r 5) with h | ⟨k, n, hkn, h⟩
  · rw [h]
    have hN : pyStrip (pyStr Cell.PyNone) = "None" := by decide
    rw [hN]
    simp
  · rw [h]
    have hn : pyStrip (pyStr (Cell.Str n)) ≠ "None" := by
      rcases hkn with h2 | h3
      · exact alpha2_names_not_none (k, n) h2
      · exact alpha3_names_not_none (k, n) h3
    have hb : (pyStrip (pyStr (Cell.Str n)) != "None") = true := by
      simpa [bne_iff_ne] using hn
    have hb2 : (Cell.Str n != Cell.PyNone) = true := by simp [bne_iff_ne]
    rw [hb, hb2]
    simp [Bool.and_comm, Bool.and_left_comm, Bool.and_assoc]

theorem c9_keyFacts : ∀ C ∈ alpha2Table.map Prod.fst,
    C ≠ "" ∧ pyLower C ≠ "" ∧ (" " ++ C ++ " ") ≠ "" ∧
    pyUpper (pyStrip (pyLower C)) = pyUpper (pyStrip C) ∧
    pyUpper (pyStrip (" " ++ C ++ " ")) = pyUpper (pyStrip C) := by decide

/-- C1 (counterexample): the claimed iff fails.  On a record with code "FR"
and the genuine reported text "nan", the spec-side rule of claim C1 says
suspect (resolved "France" is non-empty, reported "nan" is non-empty, and the
trimmed names differ), yet `process_data` returns an empty suspect set for
the one-record frame holding it. -/
theorem claimC1_counterexample :
    process_data dfNanText = Except.ok (DataFrame.mk col7 [], withResolution dfNanText) ∧
    suspectSpecC1 (Cell.Str "FR") (Cell.Str "nan") = true :=
  ⟨by decide, by decide⟩

/-- C1 (amended): on a rectangular frame with at least 7 columns and no
column already labelled `mapped_country_name`, `process_data` classifies a
record suspect iff the resolution of its code-column cell did not fail, the
trimmed string form of its reported-name cell is not the literal "nan", and
the trimmed string forms of the resolved and the reported name differ. -/
theorem claimC1_amended (df : DataFrame) (hwf : df.Wellformed)
    (h7 : 7 ≤ df.cols.length) (hh : "mapped_country_name" ∉ df.cols) :
    process_data df =
      Except.ok
        (⟨df.cols,
          df.rows.filter (fun r => suspectAmendedC1 (cellAt r 5) (cellAt r 6))⟩,
         withResolution df) := by
  rw [process_data_ok df hwf h7 hh]
  have hfc : df.rows.filter mismatchRow =
      df.rows.filter (fun r => suspectAmendedC1 (cellAt r 5) (cellAt r 6)) :=
    List.filter_congr (fun r _ => mismatchRow_eq_suspectAmendedC1 r)
  rw [hfc]

/-- C1 (witness): the amended characterization applied to the concrete frame
`dfOK`. -/
theorem claimC1_witness :
    process_data dfOK =
      Except.ok
        (⟨dfOK.cols,
          dfOK.rows.filter (fun r => suspectAmendedC1 (cellAt r 5) (cellAt r 6))⟩,
         withResolution dfOK) :=
  claimC1_amended dfOK (by decide) (by decide) (by decide)

/-- C2 (counterexample): a record whose reported-name cell is the empty
string is classified suspect (code "FR" resolves to "France", which differs
from ""), contradicting the claim that empty reported names are never
suspect. -/
theorem claimC2_counterexample :
    process_data dfEmptyName =
      Except.ok (DataFrame.mk col7 [rowFRempty], withResolution dfEmptyName) ∧
    cellAt rowFRempty 6 = Cell.Str "" :=
  ⟨by decide, by decide⟩

/-- C2 (amended): on a rectangular frame with at least 7 columns and no
column already labelled `mapped_country_name`, a record whose reported-name
cell is null (NaN) never appears among the suspects, regardless of its code;
an empty-string reported cell is not excluded. -/
theorem claimC2_amended (df : DataFrame) (hwf : df.Wellformed)
    (h7 : 7 ≤ df.cols.length) (hh : "mapped_country_name" ∉ df.cols)
    (s a : DataFrame) (hok : process_data df = Except.ok (s, a))
    (r : List Cell) (_hr : r ∈ df.rows) (hnan : cellAt r 6 = Cell.NaN) :
    r ∉ s.rows := by
  rw [process_data_ok df hwf h7 hh] at hok
  have hpair := Except.ok.inj hok
  cases hpair
  intro hmem
  have hTrue : mismatchRow r = true := (List.mem_filter.mp hmem).2
  have hFalse : mismatchRow r = false :=
    mismatchRow_eq_false_of_nanText (by rw [hnan]; decide)
  rw [hFalse] at hTrue
  exact Bool.false_ne_true hTrue

/-- C2 (witness): the record with code "GB" and a missing reported name is
not among the suspects of `dfOK`. -/
theorem claimC2_witness : rowGB ∉ suspectOK.rows :=
  claimC2_amended dfOK (by decide) (by decide) (by decide)
    suspectOK (withResolution dfOK) (by decide) rowGB (by decide) (by decide)

/-- C3 (counterexample): `process_data` does not classify by the {3,4}
column convention: on `dfC3`, whose columns 3 and 4 mismatch while columns
5 and 6 match, the parameterized detector at positions (3,4) disagrees with
`process_data` — the positions are hard-coded, not caller-chosen. -/
theorem claimC3_counterexample : detect dfC3 3 4 ≠ process_data dfC3 := by decide

/-- C3 (amended): `process_data` takes only the frame and hard-codes the
column positions: it is exactly the spec's parameterized detector
instantiated at code column 5 and name column 6. -/
theorem claimC3_amended : ∀ df : DataFrame, process_data df = detect df 5 6 :=
  fun _ => rfl

/-- C4: on a rectangular frame with at least 7 columns and no column already
labelled `mapped_country_name`, a record whose code-column cell fails to
resolve (the resolver returns None) never appears among the suspects:
failed resolution is treated as legitimate data, not a forced mismatch. -/
theorem claimC4 (df : DataFrame) (hwf : df.Wellformed)
    (h7 : 7 ≤ df.cols.length) (hh : "mapped_country_name" ∉ df.cols)
    (s a : DataFrame) (hok : process_data df = Except.ok (s, a))
    (r : List Cell) (_hr : r ∈ df.rows)
    (hres : get_country_name_from_code (cellAt r 5) = Cell.PyNone) :
    r ∉ s.rows := by
  rw [process_data_ok df hwf h7 hh] at hok
  have hpair := Except.ok.inj hok
  cases hpair
  intro hmem
  have hTrue : mismatchRow r = true := (List.mem_filter.mp hmem).2
  have hFalse : mismatchRow r = false := mismatchRow_eq_false_of_unresolved hres
  rw [hFalse] at hTrue
  exact Bool.false_ne_true hTrue

/-- C4 (witness): the record with the unresolvable code "XX" is not among
the suspects of `dfOK`. -/
theorem claimC4_witness : rowXX ∉ suspectOK.rows :=
  claimC4 dfOK (by decide) (by decide) (by decide)
    suspectOK (withResolution dfOK) (by decide) rowXX (by decide) (by decide)

/-- C5: the resolver is a total function (the source catches every
exception): null and None and empty input give None, and any string whose
normalized (trimmed, uppercased) form matches neither reference table
resolves to None rather than an error. -/
theorem claimC5 :
    get_country_name_from_code Cell.NaN = Cell.PyNone ∧
    get_country_name_from_code Cell.PyNone = Cell.PyNone ∧
    get_country_name_from_code (Cell.Str "") = Cell.PyNone ∧
    ∀ s : String,
      tableLookup alpha2Table (pyUpper (pyStrip s)) = none →
      tableLookup alpha3Table (pyUpper (pyStrip s)) = none →
      get_country_name_from_code (Cell.Str s) = Cell.PyNone := by
  refine ⟨rfl, rfl, rfl, ?_⟩
  intro s h2 h3
  by_cases hs : s = ""
  · subst hs; rfl
  · rw [get_str hs]
    unfold resolveNorm
    rw [h2, h3]

/-- C5 (witness): the malformed code " zz " resolves to None. -/
theorem claimC5_witness : get_country_name_from_code (Cell.Str " zz ") = Cell.PyNone :=
  claimC5.2.2.2 " zz " (by decide) (by decide)

/-- C6 (code bug): with only five columns `process_data` does fail with the
column-out-of-range condition, but with exactly six columns it does not
fail at all: the helper column is appended at position 6 and compared
against itself, so the call silently succeeds with an empty suspect set
instead of surfacing `ColumnOutOfRange` as the spec requires. -/
theorem claimC6_divergence :
    process_data dfSixCol =
      Except.ok (DataFrame.mk dfSixCol.cols [], withResolution dfSixCol) ∧
    process_data dfFiveCol = Except.error PandasError.ColumnOutOfRange :=
  ⟨by decide, by decide⟩

/-- C7 (counterexample): on a frame that already carries a column labelled
`mapped_country_name`, the suspect output loses that input column: its
schema is not the input schema (no internal helper column was added — the
existing column was overwritten and then dropped). -/
theorem claimC7_counterexample :
    process_data dfHelper0 = Except.ok (suspectHelper0, procHelper0) ∧
    suspectHelper0.cols ≠ dfHelper0.cols :=
  ⟨by decide, by decide⟩

/-- C7 (amended): whenever `process_data` succeeds, the suspect output's
schema is the input schema with every column labelled `mapped_country_name`
removed; in particular it equals the input schema exactly iff no input
column carries the helper label. -/
theorem claimC7_amended (df : DataFrame) (s a : DataFrame)
    (hok : process_data df = Except.ok (s, a)) :
    s.cols = df.cols.filter (fun c => c != "mapped_country_name") := by
  unfold process_data at hok
  cases h5 : df.iloc 5 with
  | error e =>
    rw [h5] at hok
    simp only [bind, Except.bind] at hok
    exact Except.noConfusion hok
  | ok codeCol =>
    rw [h5] at hok
    simp only [bind, Except.bind] at hok
    cases h6 : (df.setCol "mapped_country_name"
        (codeCol.map get_country_name_from_code)).iloc 6 with
    | error e =>
      rw [h6] at hok
      simp only [Except.bind] at hok
      exact Except.noConfusion hok
    | ok nameCol =>
      rw [h6] at hok
      simp only [Except.bind] at hok
      cases hby : (df.setCol "mapped_country_name"
          (codeCol.map get_country_name_from_code)).byName "mapped_country_name" with
      | error e =>
        rw [hby] at hok
        simp only [Except.bind] at hok
        exact Except.noConfusion hok
      | ok mappedCol =>
        rw [hby] at hok
        simp only [Except.bind, pure, Except.pure, Except.ok.injEq] at hok
        obtain ⟨hs, ha⟩ := Prod.mk.inj hok
        subst hs
        cases hcol : colIdx df.cols "mapped_country_name" with
        | some i =>
          simp only [DataFrame.setCol, hcol, DataFrame.filterRows,
            DataFrame.hasCol, DataFrame.dropCol, Option.isSome_some, if_true]
          exact maskFilter_map_self _ _
        | none =>
          have hnm : "mapped_country_name" ∉ df.cols := not_mem_of_colIdx_eq_none hcol
          simp only [DataFrame.setCol, hcol, DataFrame.filterRows,
            DataFrame.hasCol, DataFrame.dropCol, colIdx_append_self hnm,
            Option.isSome_some, if_true]
          rw [maskFilter_map_self]
          rw [List.filter_append]
          simp

/-- C7 (witness): the amended schema equation applied to `dfOK`. -/
theorem claimC7_witness :
    suspectOK.cols = dfOK.cols.filter (fun c => c != "mapped_country_name") :=
  claimC7_amended dfOK suspectOK (withResolution dfOK) (by decide)

/-- C8 (counterexample): on a frame that already carries a column labelled
`mapped_country_name`, a suspect output row is not one of the input records
(its helper-labelled cell has been stripped), so the suspect set is not a
subset of the input records. -/
theorem claimC8_counterexample :
    process_data dfHelper0 = Except.ok (suspectHelper0, procHelper0) ∧
    rowH0dropped ∈ suspectHelper0.rows ∧ rowH0dropped ∉ dfHelper0.rows :=
  ⟨by decide, by decide, by decide⟩

/-- C8 (amended): on a rectangular frame with at least 7 columns and no
column already labelled `mapped_country_name`, the suspect rows form a
subsequence of the input rows: original order preserved, no rows added,
no rows duplicated. -/
theorem claimC8_amended (df : DataFrame) (hwf : df.Wellformed)
    (h7 : 7 ≤ df.cols.length) (hh : "mapped_country_name" ∉ df.cols)
    (s a : DataFrame) (hok : process_data df = Except.ok (s, a)) :
    s.rows.Sublist df.rows := by
  rw [process_data_ok df hwf h7 hh] at hok
  have hpair := Except.ok.inj hok
  cases hpair
  exact List.filter_sublist df.rows

/-- C8 (witness): the suspect rows of `dfOK` form a subsequence of its
input rows. -/
theorem claimC8_witness : suspectOK.rows.Sublist dfOK.rows :=
  claimC8_amended dfOK (by decide) (by decide) (by decide)
    suspectOK (withResolution dfOK) (by decide)

/-- C9: for every alpha-2 code present in the reference table, resolution is
case-insensitive and whitespace-insensitive: the code, its lowercase form,
and the code surrounded by spaces all resolve to the same name. -/
theorem claimC9 (C : String) (hC : C ∈ alpha2Table.map Prod.fst) :
    get_country_name_from_code (Cell.Str C) =
      get_country_name_from_code (Cell.Str (pyLower C)) ∧
    get_country_name_from_code (Cell.Str C) =
      get_country_name_from_code (Cell.Str (" " ++ C ++ " ")) := by
  obtain ⟨h1, h2, h3, h4, h5⟩ := c9_keyFacts C hC
  exact ⟨get_congr h1 h2 h4.symm, get_congr h1 h3 h5.symm⟩

/-- C9 (witness): instantiated at the table code "FR". -/
theorem claimC9_witness :
    get_country_name_from_code (Cell.Str "FR") =
      get_country_name_from_code (Cell.Str (pyLower "FR")) ∧
    get_country_name_from_code (Cell.Str "FR") =
      get_country_name_from_code (Cell.Str (" " ++ "FR" ++ " ")) :=
  claimC9 "FR" (by decide)

/-- C10: on a rectangular frame with at least 7 columns and no column
already labelled `mapped_country_name`, a record whose reported-name cell
trims to the literal three-character string "nan" — genuine text included —
never appears among the suspects: the missing-value exclusion is keyed on
that spelling. -/
theorem claimC10 (df : DataFrame) (hwf : df.Wellformed)
    (h7 : 7 ≤ df.cols.length) (hh : "mapped_country_name" ∉ df.cols)
    (s a : DataFrame) (hok : process_data df = Except.ok (s, a))
    (r : List Cell) (_hr : r ∈ df.rows)
    (htext : pyStrip (pyStr (cellAt r 6)) = "nan") :
    r ∉ s.rows := by
  rw [process_data_ok df hwf h7 hh] at hok
  have hpair := Except.ok.inj hok
  cases hpair
  intro hmem
  have hTrue : mismatchRow r = true := (List.mem_filter.mp hmem).2
  have hFalse : mismatchRow r = false := mismatchRow_eq_false_of_nanText htext
  rw [hFalse] at hTrue
  exact Bool.false_ne_true hTrue

/-- C10 (witness): the record with code "DE" and genuine reported text
" nan " is not among the suspects of `dfOK`. -/
theorem claimC10_witness : rowDEnan ∉ suspectOK.rows :=
  claimC10 dfOK (by decide) (by decide) (by decide)
    suspectOK (withResolution dfOK) (by decide) rowDEnan (by decide) (by decide)

end IPTool
